import Mathlib

/-!
Verification of the node configuration-state controller
(`api/path_configstate.go`).

The Go source is embedded shallowly:

* pure Go functions (`NoOpStateChange`, `ValidStateChange`, `makeServiceName`)
  become Lean functions of the same name;
* the collaborators that the Go function receives as handler parameters or
  calls in other packages (device store, pattern registry, workload resolver,
  service provisioner) are modelled as fields of a `Collaborators` record,
  with their outcome types taken from the specification (section 6);
* the request-scoped workflow `UpdateConfigstate` becomes a pure function
  from the requested state and the collaborator record to a result plus an
  ordered trace of collaborator calls (the trace makes "no side effects"
  and "persistence never reached" provable statements);
* a Go runtime panic (the failed type assertion that is possible at
  line 151 of the source) is an explicit `panicked` outcome.
-/

set_option maxHeartbeats 1000000

namespace Anax

def CONFIGSTATE_CONFIGURING : String := "configuring"

def CONFIGSTATE_CONFIGURED : String := "configured"

/-- `NoOpStateChange` (path_configstate.go, lines 19-24). -/
def NoOpStateChange (fromState : String) (toState : String) : Bool :=
  if fromState = toState then true else false

/-- `ValidStateChange` (path_configstate.go, lines 26-31). -/
def ValidStateChange (fromState : String) (toState : String) : Bool :=
  if fromState = CONFIGSTATE_CONFIGURING ∧ toState = CONFIGSTATE_CONFIGURED then true
  else false

/-- Modelled from the spec: the configuration-state view `{state: ...}`
returned by the API (`api.Configstate`, whose declaration is outside the
given source file). -/
structure Configstate where
  State : String
deriving DecidableEq, Repr

/-- Modelled from the spec: the device record owned by the persistence
collaborator (`persistence.ExchangeDevice`): identity, organization,
optional pattern reference, registration token and the current
configuration state. -/
structure PDevice where
  Id : String
  Org : String
  Pattern : String
  Token : String
  Config : Configstate
deriving DecidableEq, Repr

/-- Modelled from the spec: `ConvertFromPersistentHorizonDevice(d).Config`,
the configuration-state view of a stored device record. -/
def deviceConfigView (d : PDevice) : Configstate :=
  ⟨d.Config.State⟩

/-- Modelled from the spec: one acceptable version choice of a workload
(`exchange.WorkloadChoice`). -/
structure WorkloadChoice where
  Version : String
deriving DecidableEq, Repr

/-- Modelled from the spec: a workload entry of a pattern
(`exchange.WorkloadReference`): URL, organization, target architecture and
an ordered list of version choices. -/
structure Workload where
  WorkloadURL : String
  WorkloadOrg : String
  WorkloadArch : String
  WorkloadVersions : List WorkloadChoice
deriving DecidableEq, Repr

/-- Modelled from the spec: a pattern definition, an ordered list of
workload entries (`exchange.Pattern`). -/
structure Pattern where
  Workloads : List Workload
deriving DecidableEq, Repr

/-- Modelled from the spec: a dependency reference
(`policy.APISpecification`): reference URL, organization, version and the
exclusive/singleton flag. -/
structure APISpec where
  SpecRef : String
  Org : String
  Version : String
  ExclusiveAccess : Bool
deriving DecidableEq, Repr

/-- Modelled from the spec: the notification recorded for the caller when a
service is created (`events.PolicyCreatedMessage`). -/
structure PolicyCreatedMessage where
  PolicyName : String
deriving DecidableEq, Repr

/-- Modelled from the spec: the service spec handed to the provisioning
collaborator: `(reference, organization, derivedName, version)`. -/
structure Service where
  Url : String
  Org : String
  Name : String
  Version : String
deriving DecidableEq, Repr

/-- Modelled from the spec: `api.NewService`, the constructor of a service
spec from its four components. -/
def NewService (url : String) (org : String) (name : String) (version : String) : Service :=
  ⟨url, org, name, version⟩

/-! ### Character-list string helpers

`makeServiceName` uses `strings.SplitN`, `strings.TrimSuffix` and
`strings.Replace`; these are embedded as structurally recursive functions
on `List Char` so that every proof evaluates in the kernel. -/

/-- Full split of a character list at a separator (the semantics of
Go `strings.Split` for a one-character separator). -/
def splitOnChar (sep : Char) : List Char → List (List Char)
  | [] => [[]]
  | c :: cs =>
    if c = sep then [] :: splitOnChar sep cs
    else
      match splitOnChar sep cs with
      | [] => [[c]]
      | p :: ps => (c :: p) :: ps

/-- Join a list of character lists with a separator character
(the semantics of Go `strings.Join`). -/
def intercalateChar (sep : Char) : List (List Char) → List Char
  | [] => []
  | [p] => p
  | p :: ps => p ++ sep :: intercalateChar sep ps

/-- Go `strings.SplitN(s, "/", 3)`: at most three pieces, the last piece
holding the unsplit remainder. -/
def splitN3 (cs : List Char) : List (List Char) :=
  let ps := splitOnChar '/' cs
  if ps.length ≤ 3 then ps else ps.take 2 ++ [intercalateChar '/' (ps.drop 2)]

/-- Go `strings.TrimSuffix(s, "/")`: removes one trailing slash when
present. -/
def trimSlashSuffix (cs : List Char) : List Char :=
  if cs.getLast? = some '/' then cs.dropLast else cs

/-- Go `strings.Replace(s, "/", "-", -1)`: every slash becomes a hyphen. -/
def replaceSlashDash (cs : List Char) : List Char :=
  cs.map (fun c => if c = '/' then '-' else c)

/-- `makeServiceName` (path_configstate.go, lines 185-196). -/
def makeServiceName (msURL : String) (msOrg : String) (msVersion : String) : String :=
  let pieces := splitN3 msURL.data
  let url :=
    if 3 ≤ pieces.length then replaceSlashDash (trimSlashSuffix (pieces.getD 2 []))
    else []
  String.mk (url ++ '_' :: (msOrg.data ++ '_' :: msVersion.data))

/-- Drop one trailing empty segment from a segment list, when present. -/
def dropTrailingEmpty (segs : List (List Char)) : List (List Char) :=
  if segs.getLast? = some [] then segs.dropLast else segs

/-- The derived service name as the specification words it: the part of the
reference URL after its second slash, split into its slash-separated
segments, one trailing empty segment dropped, the segments joined with
hyphens, then the organization and the version appended with underscores
(`url_org_version`). -/
def serviceNameSpec (msURL : String) (msOrg : String) (msVersion : String) : String :=
  let segs := (splitOnChar '/' msURL.data).drop 2
  let url := if segs = [] then [] else intercalateChar '-' (dropTrailingEmpty segs)
  String.mk (url ++ '_' :: (msOrg.data ++ '_' :: msVersion.data))

/-! ### Dependency list algebra (spec section 4.2)

`policy.APISpecList.MergeWith` and
`policy.APISpecList.ReplaceHigherSharedSingleton` live in the `policy`
package, outside the given source file; they are modelled from the spec. -/

/-- Numeric value of one dot-separated version component. -/
def compVal (p : List Char) : Nat :=
  p.foldl (fun n c => if c.isDigit then n * 10 + (c.toNat - 48) else n) 0

/-- Numeric components of a version string. -/
def versionComps (s : String) : List Nat :=
  (splitOnChar '.' s.data).map compVal

/-- Lexicographic strict order on component lists; a shorter list precedes
any proper extension of itself. -/
def natListLt : List Nat → List Nat → Bool
  | [], [] => false
  | [], _ :: _ => true
  | _ :: _, [] => false
  | a :: as, b :: bs => if a < b then true else if b < a then false else natListLt as bs

/-- Modelled from the spec: the deterministic total order on version
strings used for singleton replacement; here, dot-separated numeric
component comparison (a semantic-version style order, as the spec
suggests). -/
def versionLt (a : String) (b : String) : Bool :=
  natListLt (versionComps a) (versionComps b)

/-- Exact equality of the `(reference, organization, version)` triple. -/
def sameTriple (a : APISpec) (b : APISpec) : Bool :=
  a.SpecRef == b.SpecRef && a.Org == b.Org && a.Version == b.Version

/-- Equality of the `(reference, organization)` pair. -/
def sameRefOrg (a : APISpec) (b : APISpec) : Bool :=
  a.SpecRef == b.SpecRef && a.Org == b.Org

/-- Modelled from the spec: `policy.APISpecList.MergeWith` — base
concatenated with every element of incoming whose exact
`(reference, organization, version)` triple is not already present in
base. -/
def MergeWith (base : List APISpec) (incoming : List APISpec) : List APISpec :=
  base ++ incoming.filter (fun e => ! base.any (fun b => sameTriple b e))

/-- Modelled from the spec: `policy.APISpecList.ReplaceHigherSharedSingleton`
— for every singleton-flagged entry `e` of incoming, a singleton entry of
base with the same `(reference, organization)` and a lower version is
removed from base; an `e` that does not beat such a base entry is dropped
from incoming (never downgrades). The pair `(new base, new incoming)` is
returned; the subsequent merge combines the two. -/
def ReplaceHigherSharedSingleton (base : List APISpec) (incoming : List APISpec) :
    List APISpec × List APISpec :=
  (base.filter (fun b =>
      ! (b.ExclusiveAccess && incoming.any (fun e =>
          e.ExclusiveAccess && sameRefOrg b e && versionLt b.Version e.Version))),
   incoming.filter (fun e =>
      ! (e.ExclusiveAccess && base.any (fun b =>
          b.ExclusiveAccess && sameRefOrg b e && ! versionLt b.Version e.Version))))

/-! ### Collaborator interfaces and outcomes (spec section 6) -/

/-- The fault taxonomy of the API layer: `NewSystemError`,
`NewNotFoundError` and `NewAPIUserInputError` (message plus input path). -/
inductive APIError where
  | system : String → APIError
  | notFound : String → APIError
  | userInput : String → String → APIError
deriving DecidableEq, Repr

/-- Modelled from the spec: classified outcome of one
`CreateService` invocation — created (with the notification message),
already present (`DuplicateServiceError`), required variables missing
(`MSMissingVariableConfigError`, with its message), or any other error. -/
inductive CreateOutcome where
  | created : PolicyCreatedMessage → CreateOutcome
  | duplicateSvc : CreateOutcome
  | missingVarCfg : String → CreateOutcome
  | otherErr : String → CreateOutcome
deriving DecidableEq, Repr

/-- A Go `error` interface value, as far as the type assertion at
line 151 of the source can observe it: nil, a
`*MSMissingVariableConfigError`, or some other error. -/
inductive GoError where
  | goNil : GoError
  | msMissingVariableConfig : String → GoError
  | goOther : String → GoError
deriving DecidableEq, Repr

/-- One observable collaborator call made by the workflow, in order. -/
inductive Effect where
  | callGetPatterns : String → String → String → String → Effect
  | callResolveWorkload : String → String → String → String → Effect
  | callCreateService : Service → Effect
  | callSetConfigstate : String → String → Effect
deriving DecidableEq, Repr

/-- Intermediate outcome of a workflow stage: a value, a classified fault,
or a Go runtime panic. -/
inductive Step (α : Type) where
  | ok : α → Step α
  | fault : APIError → Step α
  | panicked : Step α
deriving DecidableEq, Repr

/-- Final outcome of `UpdateConfigstate`: a classified fault (written to
the HTTP response through the error handler), or the updated
configuration-state view plus the ordered notification list, or a Go
runtime panic. -/
inductive UCResult where
  | fault : APIError → UCResult
  | success : Configstate → List PolicyCreatedMessage → UCResult
  | panicked : UCResult
deriving DecidableEq, Repr

/-- The request-scoped collaborators of `UpdateConfigstate`: the device
store read result, the pattern registry, the workload resolver, the
service provisioner, the persistence update, and the node architecture
(`cutil.ArchString()`). -/
structure Collaborators where
  findDevice : Except String (Option PDevice)
  getPatterns : String → String → String → String → Except String (List (String × Pattern))
  resolveWorkload : String → String → String → String → String → String → Except String (List APISpec)
  createService : Service → CreateOutcome
  setConfigstate : PDevice → String → Except String PDevice
  thisArch : String

/-- `FindConfigstateForOutput` (path_configstate.go, lines 33-52), with the
store read passed as a value. -/
def FindConfigstateForOutput (findDevice : Except String (Option PDevice)) :
    Except String Configstate :=
  match findDevice with
  | Except.error e => Except.error ("unable to read horizondevice object, error " ++ e)
  | Except.ok none => Except.ok ⟨CONFIGSTATE_CONFIGURING⟩
  | Except.ok (some pDevice) => Except.ok (deviceConfigView pDevice)

/-- The service spec built for a dependency reference (line 146 of the
source). -/
def serviceOf (a : APISpec) : Service :=
  NewService a.SpecRef a.Org (makeServiceName a.SpecRef a.Org a.Version) a.Version

/-- Go map lookup `pattern[patId]` over the association-list model of the
returned pattern map. -/
def lookupPattern (m : List (String × Pattern)) (k : String) : Option Pattern :=
  (m.find? (fun p => p.1 == k)).map (fun p => p.2)

/-- Inner resolution loop of `UpdateConfigstate` (lines 122-134): one
workload's version choices, accumulating into the running total with
singleton replacement followed by merge. -/
def resolveChoicesLoop (c : Collaborators) (dev : PDevice) (w : Workload) :
    List WorkloadChoice → List APISpec → List Effect → Step (List APISpec) × List Effect
  | [], acc, tr => (Step.ok acc, tr)
  | ch :: rest, acc, tr =>
    let tr2 := tr ++ [Effect.callResolveWorkload w.WorkloadURL w.WorkloadOrg ch.Version c.thisArch]
    match c.resolveWorkload w.WorkloadURL w.WorkloadOrg ch.Version c.thisArch dev.Id dev.Token with
    | Except.error e =>
      (Step.fault (APIError.system ("Error resolving workload " ++ w.WorkloadURL ++ " " ++
        w.WorkloadOrg ++ " " ++ ch.Version ++ " " ++ c.thisArch ++ ", error " ++ e)), tr2)
    | Except.ok apiSpecList =>
      let p := ReplaceHigherSharedSingleton acc apiSpecList
      resolveChoicesLoop c dev w rest (MergeWith p.1 p.2) tr2

/-- Outer resolution loop of `UpdateConfigstate` (lines 113-136): each
workload of the pattern, skipping architecture mismatches. -/
def resolveWorkloadsLoop (c : Collaborators) (dev : PDevice) :
    List Workload → List APISpec → List Effect → Step (List APISpec) × List Effect
  | [], acc, tr => (Step.ok acc, tr)
  | w :: ws, acc, tr =>
    if w.WorkloadArch ≠ c.thisArch then resolveWorkloadsLoop c dev ws acc tr
    else
      match resolveChoicesLoop c dev w w.WorkloadVersions acc tr with
      | (Step.ok acc2, tr2) => resolveWorkloadsLoop c dev ws acc2 tr2
      | (Step.fault e, tr2) => (Step.fault e, tr2)
      | (Step.panicked, tr2) => (Step.panicked, tr2)

/-- Auto-provisioning loop of `UpdateConfigstate` (lines 142-166).
`errVar` is the value of the Go variable `err` that is in scope at the
type assertion of line 151 (the error returned by `getPatterns` at
line 94, necessarily nil once the loop is reached); the assertion
`err.(*MSMissingVariableConfigError)` succeeds only when that value is a
non-nil `*MSMissingVariableConfigError`, and otherwise panics. -/
def autoProvisionLoop (c : Collaborators) (errVar : GoError) :
    List APISpec → List PolicyCreatedMessage → List Effect →
    Step (List PolicyCreatedMessage) × List Effect
  | [], msgs, tr => (Step.ok msgs, tr)
  | a :: rest, msgs, tr =>
    let service := serviceOf a
    let tr2 := tr ++ [Effect.callCreateService service]
    match c.createService service with
    | CreateOutcome.created msg => autoProvisionLoop c errVar rest (msgs ++ [msg]) tr2
    | CreateOutcome.duplicateSvc => autoProvisionLoop c errVar rest msgs tr2
    | CreateOutcome.missingVarCfg _ =>
      match errVar with
      | GoError.msMissingVariableConfig msErr =>
        (Step.fault (APIError.userInput ("Configstate autoconfig, microservice " ++
          a.SpecRef ++ " " ++ a.Org ++ " " ++ a.Version ++ ", " ++ msErr)
          "configstate.state"), tr2)
      | _ => (Step.panicked, tr2)
    | CreateOutcome.otherErr d =>
      (Step.fault (APIError.system ("unexpected error returned from service create " ++ d)), tr2)

/-- The pattern autoconfig block of `UpdateConfigstate` (lines 89-170):
fetch the pattern, check that exactly one came back under the expected
key, resolve every architecture-matching workload, then auto-provision the
resolved list. The provisioning loop receives `GoError.goNil` because the
`err` in scope there is the (necessarily nil) `getPatterns` error. -/
def runPattern (c : Collaborators) (pDevice : PDevice) :
    Step (List PolicyCreatedMessage) × List Effect :=
  if pDevice.Pattern = "" then (Step.ok [], [])
  else
    let tr0 := [Effect.callGetPatterns pDevice.Org pDevice.Pattern pDevice.Id pDevice.Token]
    match c.getPatterns pDevice.Org pDevice.Pattern pDevice.Id pDevice.Token with
    | Except.error e =>
      (Step.fault (APIError.system ("Unable to read pattern object " ++ pDevice.Pattern ++
        " from exchange, error " ++ e)), tr0)
    | Except.ok pattern =>
      if pattern.length ≠ 1 then
        (Step.fault (APIError.system ("Expected only 1 pattern from exchange, received " ++
          toString pattern.length)), tr0)
      else
        match lookupPattern pattern (pDevice.Org ++ "/" ++ pDevice.Pattern) with
        | none => (Step.fault (APIError.system "Expected pattern id not found in GET pattern response"), tr0)
        | some patternDef =>
          match resolveWorkloadsLoop c pDevice patternDef.Workloads [] tr0 with
          | (Step.ok completeAPISpecList, tr1) =>
            autoProvisionLoop c GoError.goNil completeAPISpecList [] tr1
          | (Step.fault e, tr1) => (Step.fault e, tr1)
          | (Step.panicked, tr1) => (Step.panicked, tr1)

/-- `UpdateConfigstate` after the device record has been found
(lines 76-183): the state-domain check, the no-op check, the transition
check, the pattern block, then persistence. -/
def updateWithDevice (cfgState : String) (c : Collaborators) (pDevice : PDevice) :
    UCResult × List Effect :=
  if cfgState ≠ CONFIGSTATE_CONFIGURING ∧ cfgState ≠ CONFIGSTATE_CONFIGURED then
    (UCResult.fault (APIError.userInput ("Supported state values are " ++
      CONFIGSTATE_CONFIGURING ++ " and " ++ CONFIGSTATE_CONFIGURED ++ ".")
      "configstate.state"), [])
  else if NoOpStateChange pDevice.Config.State cfgState then
    (UCResult.success (deviceConfigView pDevice) [], [])
  else if ¬ ValidStateChange pDevice.Config.State cfgState then
    (UCResult.fault (APIError.userInput ("Transition from " ++ pDevice.Config.State ++
      " to " ++ cfgState ++ " is not supported.") "configstate.state"), [])
  else
    match runPattern c pDevice with
    | (Step.ok msgs, tr) =>
      match c.setConfigstate pDevice cfgState with
      | Except.error e =>
        (UCResult.fault (APIError.system ("error persisting new config state: " ++ e)),
         tr ++ [Effect.callSetConfigstate pDevice.Id cfgState])
      | Except.ok updatedDev =>
        (UCResult.success (deviceConfigView updatedDev) msgs,
         tr ++ [Effect.callSetConfigstate pDevice.Id cfgState])
    | (Step.fault e, tr) => (UCResult.fault e, tr)
    | (Step.panicked, tr) => (UCResult.panicked, tr)

/-- `UpdateConfigstate` (path_configstate.go, lines 55-183). -/
def UpdateConfigstate (cfgState : String) (c : Collaborators) : UCResult × List Effect :=
  match c.findDevice with
  | Except.error e =>
    (UCResult.fault (APIError.system ("Unable to read horizondevice object, error " ++ e)), [])
  | Except.ok none =>
    (UCResult.fault (APIError.notFound "Exchange registration not recorded. Complete account and device registration with an exchange and then record device registration using this APIs /horizondevice path."), [])
  | Except.ok (some pDevice) => updateWithDevice cfgState c pDevice

/-- The accumulation step as the spec words it (section 4.3, step 3): for
one workload, fold its version choices, each time applying singleton
replacement of the running total against the resolved sub-list and then
merging without duplicates. -/
def specAccStep (resFn : String → String → String → List APISpec)
    (acc : List APISpec) (w : Workload) : List APISpec :=
  w.WorkloadVersions.foldl (fun a ch =>
    let sub := resFn w.WorkloadURL w.WorkloadOrg ch.Version
    let p := ReplaceHigherSharedSingleton a sub
    MergeWith p.1 p.2) acc

/-- The full resolution as the spec words it: a fold of the accumulation
step over the architecture-matching workloads, starting from the empty
running total. -/
def specResolveFold (resFn : String → String → String → List APISpec)
    (arch : String) (ws : List Workload) : List APISpec :=
  (ws.filter (fun w => w.WorkloadArch == arch)).foldl (specAccStep resFn) []

/-- Outcomes the provisioning loop absorbs without aborting: created and
already present. -/
def recoverable : CreateOutcome → Bool
  | CreateOutcome.created _ => true
  | CreateOutcome.duplicateSvc => true
  | _ => false

/-- The notification recorded for an outcome: exactly the created case. -/
def createdMsgOf : CreateOutcome → Option PolicyCreatedMessage
  | CreateOutcome.created m => some m
  | _ => none

/-! ### Theorems -/

/-- A requested state inside the two-value domain passes the domain
check of line 79. -/
theorem domain_check_passes {cfgState : String}
    (h : cfgState = CONFIGSTATE_CONFIGURING ∨ cfgState = CONFIGSTATE_CONFIGURED) :
    ¬ (cfgState ≠ CONFIGSTATE_CONFIGURING ∧ cfgState ≠ CONFIGSTATE_CONFIGURED) := by
  rcases h with h | h <;> simp [h]

/-- Claim C9: when no device record is registered and the store read
succeeds, `FindConfigstateForOutput` returns a standalone
configuration-state view whose state is `configuring`, and no error. -/
theorem claim_C9 :
    FindConfigstateForOutput (Except.ok none) = Except.ok ⟨CONFIGSTATE_CONFIGURING⟩ := rfl

/-- Claim C3: `ValidStateChange from to` is true exactly when `from` is
`configuring` and `to` is `configured` — every other pair of strings gives
false — and when a found device is asked for an in-domain transition that
is neither a no-op nor valid, `UpdateConfigstate` returns an invalid-input
fault naming both states, with no collaborator calls made. -/
theorem claim_C3 :
    (∀ fromState toState : String,
      ValidStateChange fromState toState = true ↔
        (fromState = CONFIGSTATE_CONFIGURING ∧ toState = CONFIGSTATE_CONFIGURED)) ∧
    (∀ (cfgState : String) (c : Collaborators) (dev : PDevice),
      c.findDevice = Except.ok (some dev) →
      (cfgState = CONFIGSTATE_CONFIGURING ∨ cfgState = CONFIGSTATE_CONFIGURED) →
      NoOpStateChange dev.Config.State cfgState = false →
      ValidStateChange dev.Config.State cfgState = false →
      UpdateConfigstate cfgState c =
        (UCResult.fault (APIError.userInput ("Transition from " ++ dev.Config.State ++
          " to " ++ cfgState ++ " is not supported.") "configstate.state"), [])) := by
  constructor
  · intro f t
    by_cases h : f = CONFIGSTATE_CONFIGURING ∧ t = CONFIGSTATE_CONFIGURED
    · simp [ValidStateChange, h]
    · simp [ValidStateChange, h]
  · intro cfgState c dev hfind hdom hnoop hvalid
    simp only [UpdateConfigstate, hfind, updateWithDevice]
    rw [if_neg (domain_check_passes hdom), if_neg (by simp [hnoop]),
      if_pos (by simp [hvalid])]

/-- Device record used in the reverse-transition scenario (scenario E):
state `configured`, no pattern. -/
def devRevScenario : PDevice := ⟨"dev1", "myorg", "", "tok1", ⟨CONFIGSTATE_CONFIGURED⟩⟩

/-- Collaborators for the reverse-transition scenario. -/
def collabRevScenario : Collaborators :=
  ⟨Except.ok (some devRevScenario),
   fun _ _ _ _ => Except.ok [],
   fun _ _ _ _ _ _ => Except.ok [],
   fun _ => CreateOutcome.duplicateSvc,
   fun d s => Except.ok ⟨d.Id, d.Org, d.Pattern, d.Token, ⟨s⟩⟩,
   "amd64"⟩

/-- Witness for C3: requesting `configuring` while the device is
`configured` yields the invalid-input fault naming both states. -/
theorem claim_C3_witness :
    UpdateConfigstate CONFIGSTATE_CONFIGURING collabRevScenario =
      (UCResult.fault (APIError.userInput ("Transition from " ++ CONFIGSTATE_CONFIGURED ++
        " to " ++ CONFIGSTATE_CONFIGURING ++ " is not supported.") "configstate.state"), []) :=
  claim_C3.2 CONFIGSTATE_CONFIGURING collabRevScenario devRevScenario rfl (Or.inl rfl)
    (by decide) (by decide)

/-- Claim C4: `NoOpStateChange s s` is true for every state, and when the
requested in-domain target state equals the device's current state,
`UpdateConfigstate` returns the current state unchanged, with an empty
notification list and an empty effect trace (no pattern resolution, no
provisioning, no persistence). -/
theorem claim_C4 :
    (∀ s : String, NoOpStateChange s s = true) ∧
    (∀ (cfgState : String) (c : Collaborators) (dev : PDevice),
      c.findDevice = Except.ok (some dev) →
      (cfgState = CONFIGSTATE_CONFIGURING ∨ cfgState = CONFIGSTATE_CONFIGURED) →
      cfgState = dev.Config.State →
      UpdateConfigstate cfgState c = (UCResult.success (deviceConfigView dev) [], [])) := by
  constructor
  · intro s; simp [NoOpStateChange]
  · intro cfgState c dev hfind hdom heq
    simp only [UpdateConfigstate, hfind, updateWithDevice]
    rw [if_neg (domain_check_passes hdom), if_pos (by simp [NoOpStateChange, heq])]

/-- Device record for the no-op scenario: state `configuring`. -/
def devNoOpScenario : PDevice := ⟨"dev2", "org2", "pat2", "tok2", ⟨CONFIGSTATE_CONFIGURING⟩⟩

/-- Collaborators for the no-op scenario. -/
def collabNoOpScenario : Collaborators :=
  ⟨Except.ok (some devNoOpScenario),
   fun _ _ _ _ => Except.ok [],
   fun _ _ _ _ _ _ => Except.ok [],
   fun _ => CreateOutcome.duplicateSvc,
   fun d s => Except.ok ⟨d.Id, d.Org, d.Pattern, d.Token, ⟨s⟩⟩,
   "amd64"⟩

/-- Witness for C4: requesting `configuring` while already `configuring`
returns the unchanged state with no effects, even though a pattern is
set. -/
theorem claim_C4_witness :
    UpdateConfigstate CONFIGSTATE_CONFIGURING collabNoOpScenario =
      (UCResult.success ⟨CONFIGSTATE_CONFIGURING⟩ [], []) :=
  claim_C4.2 CONFIGSTATE_CONFIGURING collabNoOpScenario devNoOpScenario rfl (Or.inl rfl) rfl

/-- Claim C5: the outer resolution loop behaves exactly as if every
workload whose declared architecture differs from the node's architecture
had been removed first: such workloads contribute no resolved entries, no
`resolveWorkload` calls (the effect trace is unchanged), and no fault. -/
theorem claim_C5 (c : Collaborators) (dev : PDevice) (ws : List Workload)
    (acc : List APISpec) (tr : List Effect) :
    resolveWorkloadsLoop c dev ws acc tr =
      resolveWorkloadsLoop c dev (ws.filter (fun w => w.WorkloadArch == c.thisArch)) acc tr := by
  induction ws generalizing acc tr with
  | nil => rfl
  | cons w ws ih =>
    by_cases h : w.WorkloadArch = c.thisArch
    · have hfilter : (w :: ws).filter (fun w => w.WorkloadArch == c.thisArch) =
          w :: ws.filter (fun w => w.WorkloadArch == c.thisArch) := by
        simp [List.filter_cons, h]
      rw [hfilter]
      simp only [resolveWorkloadsLoop]
      rw [if_neg (by simp [h]), if_neg (by simp [h])]
      rcases hres : resolveChoicesLoop c dev w w.WorkloadVersions acc tr with ⟨st, tr2⟩
      cases st with
      | ok acc2 => exact ih acc2 tr2
      | fault e => rfl
      | panicked => rfl
    · have hfilter : (w :: ws).filter (fun w => w.WorkloadArch == c.thisArch) =
          ws.filter (fun w => w.WorkloadArch == c.thisArch) := by
        simp [List.filter_cons, h]
      rw [hfilter]
      simp only [resolveWorkloadsLoop]
      rw [if_pos h]
      exact ih acc tr

/-! ### String lemmas for the derived service name -/

theorem splitOnChar_ne_nil (sep : Char) (cs : List Char) : splitOnChar sep cs ≠ [] := by
  induction cs with
  | nil => simp [splitOnChar]
  | cons c cs ih =>
    simp only [splitOnChar]
    split
    · simp
    · split
      · simp
      · simp

theorem intercalateChar_cons_cons (sep : Char) (p q : List Char) (ps : List (List Char)) :
    intercalateChar sep (p :: q :: ps) = p ++ sep :: intercalateChar sep (q :: ps) := rfl

theorem intercalate_splitOnChar (sep : Char) (cs : List Char) :
    intercalateChar sep (splitOnChar sep cs) = cs := by
  induction cs with
  | nil => rfl
  | cons c cs ih =>
    simp only [splitOnChar]
    by_cases h : c = sep
    · rw [if_pos h]
      obtain ⟨p, ps, hps⟩ := List.exists_cons_of_ne_nil (splitOnChar_ne_nil sep cs)
      rw [hps]
      rw [hps] at ih
      rw [intercalateChar_cons_cons]
      simp [ih, h]
    · rw [if_neg h]
      obtain ⟨p, ps, hps⟩ := List.exists_cons_of_ne_nil (splitOnChar_ne_nil sep cs)
      rw [hps]
      rw [hps] at ih
      cases ps with
      | nil =>
        simp only [intercalateChar] at ih ⊢
        rw [ih]
      | cons q qs =>
        rw [intercalateChar_cons_cons] at ih
        rw [intercalateChar_cons_cons]
        simp [List.cons_append, ih]

theorem intercalate_concat (sep : Char) (y : List Char) (xs : List (List Char)) (h : xs ≠ []) :
    intercalateChar sep (xs ++ [y]) = intercalateChar sep xs ++ sep :: y := by
  induction xs with
  | nil => exact absurd rfl h
  | cons x xs ih =>
    cases xs with
    | nil => simp [intercalateChar, intercalateChar_cons_cons]
    | cons q qs =>
      have ih2 := ih (by simp)
      simp only [List.cons_append] at ih2 ⊢
      rw [intercalateChar_cons_cons, ih2, intercalateChar_cons_cons]
      simp

theorem sep_not_mem_splitOnChar (sep : Char) (cs : List Char) :
    ∀ p ∈ splitOnChar sep cs, sep ∉ p := by
  induction cs with
  | nil =>
    intro p hp
    simp [splitOnChar] at hp
    simp [hp]
  | cons c cs ih =>
    intro p hp
    simp only [splitOnChar] at hp
    by_cases h : c = sep
    · rw [if_pos h] at hp
      rcases List.mem_cons.mp hp with h1 | h1
      · simp [h1]
      · exact ih p h1
    · rw [if_neg h] at hp
      obtain ⟨q, qs, hqs⟩ := List.exists_cons_of_ne_nil (splitOnChar_ne_nil sep cs)
      rw [hqs] at hp
      simp only at hp
      rcases List.mem_cons.mp hp with h1 | h1
      · subst h1
        intro hmem
        rcases List.mem_cons.mp hmem with h2 | h2
        · exact h h2.symm
        · exact ih q (by rw [hqs]; exact List.mem_cons_self q qs) h2
      · exact ih p (by rw [hqs]; exact List.mem_cons_of_mem q h1)

theorem replaceSlashDash_append (a b : List Char) :
    replaceSlashDash (a ++ b) = replaceSlashDash a ++ replaceSlashDash b := by
  simp [replaceSlashDash]

theorem replace_intercalate (xs : List (List Char)) :
    replaceSlashDash (intercalateChar '/' xs) =
      intercalateChar '-' (xs.map replaceSlashDash) := by
  induction xs with
  | nil => rfl
  | cons p ps ih =>
    cases ps with
    | nil => rfl
    | cons q qs =>
      simp only [List.map_cons] at ih ⊢
      rw [intercalateChar_cons_cons, intercalateChar_cons_cons, replaceSlashDash_append]
      rw [show replaceSlashDash ('/' :: intercalateChar '/' (q :: qs)) =
        '-' :: replaceSlashDash (intercalateChar '/' (q :: qs)) by simp [replaceSlashDash]]
      rw [ih]

theorem replace_eq_self (p : List Char) (h : '/' ∉ p) : replaceSlashDash p = p := by
  induction p with
  | nil => rfl
  | cons c cs ih =>
    have hc : c ≠ '/' := fun hc => h (hc ▸ List.mem_cons_self c cs)
    have hcs : '/' ∉ cs := fun hm => h (List.mem_cons_of_mem c hm)
    simp only [replaceSlashDash, List.map_cons, if_neg hc]
    exact congrArg (c :: ·) (ih hcs)

theorem map_replace_eq_self (segs : List (List Char)) (h : ∀ p ∈ segs, '/' ∉ p) :
    segs.map replaceSlashDash = segs := by
  induction segs with
  | nil => rfl
  | cons p ps ih =>
    simp only [List.map_cons]
    rw [replace_eq_self p (h p (List.mem_cons_self p ps)),
      ih (fun q hq => h q (List.mem_cons_of_mem p hq))]

theorem mem_of_getLast?_eq {α : Type} {l : List α} {a : α} (h : l.getLast? = some a) :
    a ∈ l := by
  obtain ⟨hne, heq⟩ := List.mem_getLast?_eq_getLast (show a ∈ l.getLast? from h)
  rw [heq]
  exact List.getLast_mem hne

theorem dropTrailingEmpty_subset (segs : List (List Char)) :
    ∀ p ∈ dropTrailingEmpty segs, p ∈ segs := by
  intro p hp
  simp only [dropTrailingEmpty] at hp
  split at hp
  · exact (List.dropLast_sublist segs).subset hp
  · exact hp

theorem trim_intercalate (segs : List (List Char)) (hfree : ∀ p ∈ segs, '/' ∉ p)
    (hne : segs ≠ []) :
    trimSlashSuffix (intercalateChar '/' segs) =
      intercalateChar '/' (dropTrailingEmpty segs) := by
  rcases List.eq_nil_or_concat segs with h | ⟨init, last, rfl⟩
  · exact absurd h hne
  · rw [List.concat_eq_append] at hfree ⊢
    by_cases hlast : last = []
    · subst hlast
      cases init with
      | nil =>
        simp [intercalateChar, trimSlashSuffix, dropTrailingEmpty]
      | cons i is =>
        have hdte : dropTrailingEmpty ((i :: is) ++ [[]]) = i :: is := by
          have h1 : ((i :: is) ++ [[]]).getLast? = some [] := List.getLast?_concat _
          have h2 : ((i :: is) ++ [[]]).dropLast = i :: is := List.dropLast_concat
          simp only [dropTrailingEmpty]
          rw [if_pos h1, h2]
        rw [intercalate_concat _ _ _ (by simp), hdte]
        show trimSlashSuffix (intercalateChar '/' (i :: is) ++ ['/']) =
          intercalateChar '/' (i :: is)
        simp [trimSlashSuffix, List.getLast?_concat, List.dropLast_concat]
    · have hlastfree : '/' ∉ last := hfree last (by simp)
      have hgl : (intercalateChar '/' (init ++ [last])).getLast? ≠ some '/' := by
        intro hcon
        cases init with
        | nil =>
          simp only [List.nil_append, intercalateChar] at hcon
          exact hlastfree (mem_of_getLast?_eq hcon)
        | cons i is =>
          rw [intercalate_concat _ _ _ (by simp)] at hcon
          rw [show ('/' : Char) :: last = ['/'] ++ last from rfl, ← List.append_assoc] at hcon
          rw [List.getLast?_append_of_ne_nil _ hlast] at hcon
          exact hlastfree (mem_of_getLast?_eq hcon)
      have hdte : dropTrailingEmpty (init ++ [last]) = init ++ [last] := by
        simp only [dropTrailingEmpty, List.getLast?_concat]
        rw [if_neg (by simpa using hlast)]
      rw [hdte]
      simp only [trimSlashSuffix]
      rw [if_neg hgl]

theorem splitN3_short (cs : List Char) (h : (splitOnChar '/' cs).length ≤ 2) :
    ¬ 3 ≤ (splitN3 cs).length := by
  have h3 : (splitOnChar '/' cs).length ≤ 3 := le_trans h (by norm_num)
  simp only [splitN3]
  rw [if_pos h3]
  omega

theorem splitN3_getD (cs : List Char) (h : 3 ≤ (splitOnChar '/' cs).length) :
    3 ≤ (splitN3 cs).length ∧
      (splitN3 cs).getD 2 [] = intercalateChar '/' ((splitOnChar '/' cs).drop 2) := by
  rcases hps : splitOnChar '/' cs with _ | ⟨a, _ | ⟨b, _ | ⟨r, rest⟩⟩⟩
  · rw [hps] at h; simp at h
  · rw [hps] at h; simp at h
  · rw [hps] at h; simp at h
  · cases rest with
    | nil =>
      simp [splitN3, hps, intercalateChar]
    | cons r2 rs =>
      have hlen : ¬ ((a :: b :: r :: r2 :: rs).length ≤ 3) := by simp
      simp [splitN3, hps, hlen, intercalateChar]

/-- Claim C8: `makeServiceName` agrees everywhere with the service name as
the spec words it — the reference URL part after the second slash with
slashes turned into hyphens, then the organization, then the version,
joined by underscores. In particular the name is a deterministic function
of those three components. -/
theorem claim_C8 (msURL msOrg msVersion : String) :
    makeServiceName msURL msOrg msVersion = serviceNameSpec msURL msOrg msVersion := by
  have hurl : (if 3 ≤ (splitN3 msURL.data).length
      then replaceSlashDash (trimSlashSuffix ((splitN3 msURL.data).getD 2 []))
      else []) =
      (if (splitOnChar '/' msURL.data).drop 2 = [] then []
       else intercalateChar '-' (dropTrailingEmpty ((splitOnChar '/' msURL.data).drop 2))) := by
    by_cases h : 3 ≤ (splitOnChar '/' msURL.data).length
    · obtain ⟨hlen, hgetD⟩ := splitN3_getD msURL.data h
      rw [if_pos hlen, hgetD]
      have hsegs_ne : (splitOnChar '/' msURL.data).drop 2 ≠ [] := by
        intro hc
        have hlc := congrArg List.length hc
        simp only [List.length_drop, List.length_nil] at hlc
        omega
      rw [if_neg hsegs_ne]
      have hfree : ∀ p ∈ (splitOnChar '/' msURL.data).drop 2, '/' ∉ p :=
        fun p hp => sep_not_mem_splitOnChar '/' msURL.data p (List.drop_subset _ _ hp)
      rw [trim_intercalate _ hfree hsegs_ne, replace_intercalate,
        map_replace_eq_self _ (fun p hp => hfree p (dropTrailingEmpty_subset _ p hp))]
    · have h2 : (splitOnChar '/' msURL.data).length ≤ 2 := by omega
      rw [if_neg (splitN3_short msURL.data h2)]
      rw [if_pos (List.drop_eq_nil_of_le h2)]
  simp only [makeServiceName, serviceNameSpec]
  rw [hurl]

/-! ### Loop lemmas -/

/-- The provisioning loop under outcomes that are all created or already
present: it finishes, records exactly the created notifications in order,
and calls the provisioner once per dependency in list order. -/
theorem autoProvisionLoop_recoverable (c : Collaborators) (errVar : GoError)
    (deps : List APISpec) (msgs : List PolicyCreatedMessage) (tr : List Effect)
    (h : ∀ a ∈ deps, recoverable (c.createService (serviceOf a)) = true) :
    autoProvisionLoop c errVar deps msgs tr =
      (Step.ok (msgs ++ deps.filterMap (fun a => createdMsgOf (c.createService (serviceOf a)))),
       tr ++ deps.map (fun a => Effect.callCreateService (serviceOf a))) := by
  induction deps generalizing msgs tr with
  | nil => simp [autoProvisionLoop]
  | cons a rest ih =>
    have ha := h a (List.mem_cons_self a rest)
    have hrest : ∀ b ∈ rest, recoverable (c.createService (serviceOf b)) = true :=
      fun b hb => h b (List.mem_cons_of_mem a hb)
    rcases hout : c.createService (serviceOf a) with m | _ | m | d
    · simp [autoProvisionLoop, hout, ih _ _ hrest, createdMsgOf]
    · simp [autoProvisionLoop, hout, ih _ _ hrest, createdMsgOf]
    · rw [hout] at ha; simp [recoverable] at ha
    · rw [hout] at ha; simp [recoverable] at ha

/-- The inner choice loop when every resolver call succeeds: a fold of the
singleton-replacement-then-merge accumulation, with one resolver call
recorded per version choice in order. -/
theorem resolveChoicesLoop_ok (c : Collaborators) (dev : PDevice) (w : Workload)
    (resFn : String → String → String → List APISpec)
    (hres : ∀ u o v i t, c.resolveWorkload u o v c.thisArch i t = Except.ok (resFn u o v))
    (chs : List WorkloadChoice) (acc : List APISpec) (tr : List Effect) :
    resolveChoicesLoop c dev w chs acc tr =
      (Step.ok (chs.foldl (fun a ch =>
          let sub := resFn w.WorkloadURL w.WorkloadOrg ch.Version
          let p := ReplaceHigherSharedSingleton a sub
          MergeWith p.1 p.2) acc),
       tr ++ chs.map (fun ch =>
          Effect.callResolveWorkload w.WorkloadURL w.WorkloadOrg ch.Version c.thisArch)) := by
  induction chs generalizing acc tr with
  | nil => simp [resolveChoicesLoop]
  | cons ch rest ih =>
    simp only [resolveChoicesLoop, hres, List.foldl_cons, List.map_cons]
    rw [ih]
    simp

/-- The outer workload loop when every resolver call succeeds: its value
component is the architecture-filtered fold of the accumulation step. -/
theorem resolveWorkloadsLoop_ok (c : Collaborators) (dev : PDevice)
    (resFn : String → String → String → List APISpec)
    (hres : ∀ u o v i t, c.resolveWorkload u o v c.thisArch i t = Except.ok (resFn u o v))
    (ws : List Workload) (acc : List APISpec) (tr : List Effect) :
    ∃ tr2, resolveWorkloadsLoop c dev ws acc tr =
      (Step.ok ((ws.filter (fun w => w.WorkloadArch == c.thisArch)).foldl
        (specAccStep resFn) acc), tr2) := by
  induction ws generalizing acc tr with
  | nil => exact ⟨tr, by simp [resolveWorkloadsLoop]⟩
  | cons w ws ih =>
    by_cases h : w.WorkloadArch = c.thisArch
    · obtain ⟨tr2, htr⟩ := ih (specAccStep resFn acc w)
        (tr ++ w.WorkloadVersions.map (fun ch =>
          Effect.callResolveWorkload w.WorkloadURL w.WorkloadOrg ch.Version c.thisArch))
      refine ⟨tr2, ?_⟩
      simp only [resolveWorkloadsLoop]
      rw [if_neg (by simp [h])]
      rw [resolveChoicesLoop_ok c dev w resFn hres]
      rw [show (w.WorkloadVersions.foldl (fun a ch =>
          let sub := resFn w.WorkloadURL w.WorkloadOrg ch.Version
          let p := ReplaceHigherSharedSingleton a sub
          MergeWith p.1 p.2) acc) = specAccStep resFn acc w from rfl]
      have hfil : (w :: ws).filter (fun w => w.WorkloadArch == c.thisArch) =
          w :: ws.filter (fun w => w.WorkloadArch == c.thisArch) := by
        simp [List.filter_cons, h]
      rw [hfil, List.foldl_cons]
      exact htr
    · obtain ⟨tr2, htr⟩ := ih acc tr
      refine ⟨tr2, ?_⟩
      simp only [resolveWorkloadsLoop]
      rw [if_pos h, htr]
      have hfil : (w :: ws).filter (fun w => w.WorkloadArch == c.thisArch) =
          ws.filter (fun w => w.WorkloadArch == c.thisArch) := by
        simp [List.filter_cons, h]
      rw [hfil]

/-- Claim C6: when every resolver call succeeds, the value computed by the
embedded resolution loops of `UpdateConfigstate` is exactly the fold the
spec describes — over architecture-matching workloads and their version
choices in declaration order, singleton replacement of the running total
against each resolved sub-list followed by a duplicate-free merge of the
sub-list into the running total. -/
theorem claim_C6 (c : Collaborators) (dev : PDevice)
    (resFn : String → String → String → List APISpec)
    (hres : ∀ u o v i t, c.resolveWorkload u o v c.thisArch i t = Except.ok (resFn u o v))
    (ws : List Workload) :
    (resolveWorkloadsLoop c dev ws [] []).1 =
      Step.ok (specResolveFold resFn c.thisArch ws) := by
  obtain ⟨tr2, htr⟩ := resolveWorkloadsLoop_ok c dev resFn hres ws [] []
  rw [htr]
  rfl

/-- Device record for the resolution-fold scenario. -/
def devFoldScenario : PDevice := ⟨"d6", "o6", "p6", "t6", ⟨CONFIGSTATE_CONFIGURING⟩⟩

/-- Two workloads, one of a foreign architecture, with singleton version
conflicts across choices. -/
def wsFoldScenario : List Workload :=
  [⟨"wu6", "o6", "amd64", [⟨"1.0.0"⟩, ⟨"2.0.0"⟩]⟩,
   ⟨"wu7", "o6", "arm", [⟨"9.0.0"⟩]⟩]

/-- Collaborators for the resolution-fold scenario: the resolver returns a
singleton dependency whose version is the requested one. -/
def collabFoldScenario : Collaborators :=
  ⟨Except.ok (some devFoldScenario),
   fun _ _ _ _ => Except.ok [("o6/p6", ⟨wsFoldScenario⟩)],
   fun u o v _ _ _ => Except.ok [⟨u ++ "/dep", o, v, true⟩],
   fun _ => CreateOutcome.duplicateSvc,
   fun d s => Except.ok ⟨d.Id, d.Org, d.Pattern, d.Token, ⟨s⟩⟩,
   "amd64"⟩

/-- Witness for C6 at a concrete pattern with an architecture mismatch and
a singleton version upgrade across choices. -/
theorem claim_C6_witness :
    (resolveWorkloadsLoop collabFoldScenario devFoldScenario wsFoldScenario [] []).1 =
      Step.ok (specResolveFold (fun u o v => [⟨u ++ "/dep", o, v, true⟩])
        "amd64" wsFoldScenario) :=
  claim_C6 collabFoldScenario devFoldScenario (fun u o v => [⟨u ++ "/dep", o, v, true⟩])
    (fun _ _ _ _ _ => rfl) wsFoldScenario

/-- Claim C7: with a device whose transition is otherwise valid and a
pattern set, a registry answer whose map size is not one — or whose single
entry lacks the expected `organization/patternName` key — stops the whole
workflow with a systemic fault, the only collaborator call so far being
the registry fetch: no resolver call, no provisioning call, no persistence
call. -/
theorem claim_C7 (cfgState : String) (c : Collaborators) (dev : PDevice)
    (pats : List (String × Pattern))
    (hfind : c.findDevice = Except.ok (some dev))
    (hdom : cfgState = CONFIGSTATE_CONFIGURING ∨ cfgState = CONFIGSTATE_CONFIGURED)
    (hnoop : NoOpStateChange dev.Config.State cfgState = false)
    (hvalid : ValidStateChange dev.Config.State cfgState = true)
    (hpat : dev.Pattern ≠ "")
    (hget : c.getPatterns dev.Org dev.Pattern dev.Id dev.Token = Except.ok pats) :
    (pats.length ≠ 1 →
      UpdateConfigstate cfgState c =
        (UCResult.fault (APIError.system ("Expected only 1 pattern from exchange, received " ++
          toString pats.length)),
         [Effect.callGetPatterns dev.Org dev.Pattern dev.Id dev.Token])) ∧
    (pats.length = 1 →
      lookupPattern pats (dev.Org ++ "/" ++ dev.Pattern) = none →
      UpdateConfigstate cfgState c =
        (UCResult.fault (APIError.system "Expected pattern id not found in GET pattern response"),
         [Effect.callGetPatterns dev.Org dev.Pattern dev.Id dev.Token])) := by
  constructor
  · intro hlen
    have hrp : runPattern c dev =
        (Step.fault (APIError.system ("Expected only 1 pattern from exchange, received " ++
          toString pats.length)),
         [Effect.callGetPatterns dev.Org dev.Pattern dev.Id dev.Token]) := by
      simp only [runPattern]
      rw [if_neg hpat]
      simp only [hget]
      rw [if_pos hlen]
    simp only [UpdateConfigstate, hfind, updateWithDevice]
    rw [if_neg (domain_check_passes hdom), if_neg (by simp [hnoop]),
      if_neg (by simp [hvalid])]
    simp only [hrp]
  · intro hlen hlook
    have hrp : runPattern c dev =
        (Step.fault (APIError.system "Expected pattern id not found in GET pattern response"),
         [Effect.callGetPatterns dev.Org dev.Pattern dev.Id dev.Token]) := by
      simp only [runPattern]
      rw [if_neg hpat]
      simp only [hget]
      rw [if_neg (by simp [hlen])]
      simp only [hlook]
    simp only [UpdateConfigstate, hfind, updateWithDevice]
    rw [if_neg (domain_check_passes hdom), if_neg (by simp [hnoop]),
      if_neg (by simp [hvalid])]
    simp only [hrp]

/-- Device record for the bad-pattern-count scenario. -/
def devBadPattern : PDevice := ⟨"d7", "o7", "p7", "t7", ⟨CONFIGSTATE_CONFIGURING⟩⟩

/-- Collaborators whose registry returns an empty pattern map. -/
def collabBadPattern : Collaborators :=
  ⟨Except.ok (some devBadPattern),
   fun _ _ _ _ => Except.ok [],
   fun _ _ _ _ _ _ => Except.ok [],
   fun _ => CreateOutcome.duplicateSvc,
   fun d s => Except.ok ⟨d.Id, d.Org, d.Pattern, d.Token, ⟨s⟩⟩,
   "amd64"⟩

/-- Witness for C7: an empty registry answer stops the workflow with the
systemic pattern-count fault right after the fetch. -/
theorem claim_C7_witness :
    UpdateConfigstate CONFIGSTATE_CONFIGURED collabBadPattern =
      (UCResult.fault (APIError.system ("Expected only 1 pattern from exchange, received " ++
        toString (0 : Nat))),
       [Effect.callGetPatterns "o7" "p7" "d7" "t7"]) :=
  (claim_C7 CONFIGSTATE_CONFIGURED collabBadPattern devBadPattern [] rfl (Or.inr rfl)
    (by decide) (by decide) (by decide) rfl).1 (by decide)

/-- Claim C2: an already-present outcome is absorbed as success.  When the
device transition is valid, the registry returns the single expected
pattern, every resolver call succeeds, every provisioning outcome is
created or already present, and persistence succeeds, `UpdateConfigstate`
succeeds and returns exactly one notification per created dependency — the
already-present ones contribute none — in the order of the resolved
dependency list. -/
theorem claim_C2 (cfgState : String) (c : Collaborators) (dev : PDevice)
    (patDef : Pattern) (resFn : String → String → String → List APISpec) (updDev : PDevice)
    (hfind : c.findDevice = Except.ok (some dev))
    (hdom : cfgState = CONFIGSTATE_CONFIGURING ∨ cfgState = CONFIGSTATE_CONFIGURED)
    (hnoop : NoOpStateChange dev.Config.State cfgState = false)
    (hvalid : ValidStateChange dev.Config.State cfgState = true)
    (hpat : dev.Pattern ≠ "")
    (hget : c.getPatterns dev.Org dev.Pattern dev.Id dev.Token =
      Except.ok [(dev.Org ++ "/" ++ dev.Pattern, patDef)])
    (hres : ∀ u o v i t, c.resolveWorkload u o v c.thisArch i t = Except.ok (resFn u o v))
    (hrecov : ∀ a ∈ specResolveFold resFn c.thisArch patDef.Workloads,
      recoverable (c.createService (serviceOf a)) = true)
    (hset : c.setConfigstate dev cfgState = Except.ok updDev) :
    (UpdateConfigstate cfgState c).1 =
      UCResult.success (deviceConfigView updDev)
        ((specResolveFold resFn c.thisArch patDef.Workloads).filterMap
          (fun a => createdMsgOf (c.createService (serviceOf a)))) := by
  obtain ⟨tr1, hloop⟩ := resolveWorkloadsLoop_ok c dev resFn hres patDef.Workloads []
    [Effect.callGetPatterns dev.Org dev.Pattern dev.Id dev.Token]
  have hprov := autoProvisionLoop_recoverable c GoError.goNil
    (specResolveFold resFn c.thisArch patDef.Workloads) [] tr1 hrecov
  have hrp : runPattern c dev =
      (Step.ok ([] ++ (specResolveFold resFn c.thisArch patDef.Workloads).filterMap
        (fun a => createdMsgOf (c.createService (serviceOf a)))),
       tr1 ++ (specResolveFold resFn c.thisArch patDef.Workloads).map
         (fun a => Effect.callCreateService (serviceOf a))) := by
    simp only [runPattern]
    rw [if_neg hpat]
    simp only [hget]
    rw [if_neg (by simp)]
    rw [show lookupPattern [(dev.Org ++ "/" ++ dev.Pattern, patDef)]
        (dev.Org ++ "/" ++ dev.Pattern) = some patDef by simp [lookupPattern]]
    simp only [hloop]
    rw [show ((patDef.Workloads.filter (fun w => w.WorkloadArch == c.thisArch)).foldl
        (specAccStep resFn) []) = specResolveFold resFn c.thisArch patDef.Workloads from rfl]
    simp only [hprov]
  simp only [UpdateConfigstate, hfind, updateWithDevice]
  rw [if_neg (domain_check_passes hdom), if_neg (by simp [hnoop]), if_neg (by simp [hvalid])]
  simp only [hrp, hset, List.nil_append]

/-- First dependency of scenario C, already provisioned. -/
def depAlready : APISpec := ⟨"url/x/sx", "oc", "1.0.0", false⟩

/-- Second dependency of scenario C, new. -/
def depNew : APISpec := ⟨"url/y/sy", "oc", "1.0.0", false⟩

/-- The single workload of scenario C. -/
def wlScenC : Workload := ⟨"wuc", "oc", "amd64", [⟨"1.0.0"⟩]⟩

/-- Device record for scenario C: state configuring, pattern set. -/
def devScenC : PDevice := ⟨"dc", "oc", "pc", "tc", ⟨CONFIGSTATE_CONFIGURING⟩⟩

/-- The notification recorded for the new dependency of scenario C. -/
def msgScenC : PolicyCreatedMessage := ⟨"policy-y"⟩

/-- Collaborators for scenario C: the resolver yields the two
dependencies, the provisioner reports the first as already present and
creates the second. -/
def collabScenC : Collaborators :=
  ⟨Except.ok (some devScenC),
   fun _ _ _ _ => Except.ok [("oc/pc", ⟨[wlScenC]⟩)],
   fun _ _ _ _ _ _ => Except.ok [depAlready, depNew],
   fun s => if s = serviceOf depAlready then CreateOutcome.duplicateSvc
            else CreateOutcome.created msgScenC,
   fun d s => Except.ok ⟨d.Id, d.Org, d.Pattern, d.Token, ⟨s⟩⟩,
   "amd64"⟩

/-- Witness for C2 (scenario C): two resolved dependencies, the first
already present, the second new — the workflow succeeds in state
`configured` with exactly the one notification for the new dependency. -/
theorem claim_C2_witness :
    (UpdateConfigstate CONFIGSTATE_CONFIGURED collabScenC).1 =
      UCResult.success ⟨CONFIGSTATE_CONFIGURED⟩ [msgScenC] := by
  have h := claim_C2 CONFIGSTATE_CONFIGURED collabScenC devScenC ⟨[wlScenC]⟩
    (fun _ _ _ => [depAlready, depNew]) ⟨"dc", "oc", "pc", "tc", ⟨CONFIGSTATE_CONFIGURED⟩⟩
    rfl (Or.inr rfl) (by decide) (by decide) (by decide)
    (by rw [show devScenC.Org ++ "/" ++ devScenC.Pattern = "oc/pc" from rfl]; rfl)
    (fun _ _ _ _ _ => rfl) (by decide) rfl
  rw [h]
  decide

/-! ### The type assertion slip at line 151 -/

/-- Claim C10 concerns the type assertion `err.(*MSMissingVariableConfigError)`
at line 151.  The `err` in scope there is the error returned by the
`getPatterns` call of line 94 — necessarily nil once the loop runs — not
`createServiceError`.  This theorem shows the consequence: whenever the
provisioner reports a missing-variable outcome for the first dependency,
the loop, run with the nil in-scope error value, panics instead of
returning the intended invalid-input fault. -/
theorem claim_C10 (c : Collaborators) (a : APISpec) (rest : List APISpec)
    (msgs : List PolicyCreatedMessage) (tr : List Effect) (m : String)
    (h : c.createService (serviceOf a) = CreateOutcome.missingVarCfg m) :
    autoProvisionLoop c GoError.goNil (a :: rest) msgs tr =
      (Step.panicked, tr ++ [Effect.callCreateService (serviceOf a)]) := by
  simp only [autoProvisionLoop, h]

/-- A dependency whose provisioning needs manual configuration. -/
def depMissingVar : APISpec := ⟨"u/v/w", "om", "2.0.0", false⟩

/-- Collaborators whose provisioner always reports missing required
variables. -/
def collabMissingVar : Collaborators :=
  ⟨Except.ok none,
   fun _ _ _ _ => Except.ok [],
   fun _ _ _ _ _ _ => Except.ok [],
   fun _ => CreateOutcome.missingVarCfg "variable cfg missing",
   fun d s => Except.ok ⟨d.Id, d.Org, d.Pattern, d.Token, ⟨s⟩⟩,
   "amd64"⟩

/-- Witness for C10: the provisioning loop panics on a concrete
missing-variable dependency. -/
theorem claim_C10_witness :
    autoProvisionLoop collabMissingVar GoError.goNil [depMissingVar] [] [] =
      (Step.panicked, [Effect.callCreateService (serviceOf depMissingVar)]) :=
  claim_C10 collabMissingVar depMissingVar [] [] [] "variable cfg missing" rfl

/-- The resolved dependency of scenario D, requiring manual
configuration. -/
def depScenD : APISpec := ⟨"http://x/z", "oz", "1.0.0", false⟩

/-- The single workload of scenario D. -/
def wlScenD : Workload := ⟨"wuz", "oz", "amd64", [⟨"1.0.0"⟩]⟩

/-- Device record for scenario D: state configuring, pattern set. -/
def devScenD : PDevice := ⟨"dz", "oz", "pz", "tz", ⟨CONFIGSTATE_CONFIGURING⟩⟩

/-- Collaborators for scenario D: resolution succeeds with the one
dependency and provisioning reports its required variables as missing. -/
def collabScenD : Collaborators :=
  ⟨Except.ok (some devScenD),
   fun _ _ _ _ => Except.ok [("oz/pz", ⟨[wlScenD]⟩)],
   fun _ _ _ _ _ _ => Except.ok [depScenD],
   fun _ => CreateOutcome.missingVarCfg "requires 3 variable values",
   fun d s => Except.ok ⟨d.Id, d.Org, d.Pattern, d.Token, ⟨s⟩⟩,
   "amd64"⟩

/-- Claim C1 concerns scenario D end to end.  The run does stop at the
offending dependency and persistence is indeed never reached (there is no
`callSetConfigstate` in the trace), but the outcome is a panic — the
failed type assertion of line 151 on the nil in-scope `err` — not the
invalid-input fault naming the dependency that the claim describes. -/
theorem claim_C1 :
    UpdateConfigstate CONFIGSTATE_CONFIGURED collabScenD =
      (UCResult.panicked,
       [Effect.callGetPatterns "oz" "pz" "dz" "tz",
        Effect.callResolveWorkload "wuz" "oz" "1.0.0" "amd64",
        Effect.callCreateService (serviceOf depScenD)]) := by
  decide

end Anax
